import Mathlib

/-!
Verification of the char-operator charm (src/charm.py and
lib/charms/char/v0/sees.py) against its natural-language specification.

Modelling conventions (shallow embedding of the Python source):

* The pebble plan is modelled as the (optional) "char" service entry: this
  charm is the only writer of layers for its container and only ever defines
  the single service "char", so `plan.services` is `{}` or `{"char": spec}`.
* Environment dictionaries and relation databags are modelled as association
  lists in insertion order; dict update keeps the original key position.
* `container.can_connect()` is an IPC query whose result is sampled per call;
  `_common_exit_hook` performs two such queries (one at entry, one inside
  `_restart_service`), so the state carries both samples (`conn1`, `conn2`).
* `relation.units` is a Python set; its iteration order is unspecified, so a
  peer relation carries its units as a list in iteration order.
* Falsy string checks (`if not self.private_address`, the walrus filter in
  `_get_peer_addresses`) treat both `None` and `""` as absent.
-/

/-- Local charm configuration as read by charm.py: `self.config["port"]` and
`self.config["name"]`. -/
structure CharConfig where
  port : String
  name : String
deriving DecidableEq

/-- One pebble service entry, as produced by `CharCharm._char_layer` and as
stored in the plan. The environment is an association list in dict insertion
order. -/
structure ServiceSpec where
  override : String
  summary : String
  command : String
  startup : String
  environment : List (String × String)
deriving DecidableEq

/-- Juju unit statuses used by the source (ops.model status classes). -/
inductive Status where
  | maintenance (msg : String)
  | waiting (msg : String)
  | blocked (msg : String)
  | active
deriving DecidableEq

/-- The peer relation ("replicas"): peer units (excluding self) in set
iteration order, each with the `private_address` value it published (if any),
plus this unit's own databag. -/
structure PeerRelation where
  units : List (String × Option String)
  ownData : List (String × String)
deriving DecidableEq

/-- State read and written by one charm event: the two `can_connect` samples,
the binding's `bind_address`, the peer relation (none if not yet created), the
"char" entry of the pebble plan (none if never configured), whether the char
service is running, and the local config. -/
structure CharmState where
  conn1 : Bool
  conn2 : Bool
  bindAddress : Option String
  peerRel : Option PeerRelation
  plan : Option ServiceSpec
  running : Bool
  config : CharConfig
deriving DecidableEq

/-- Result of one `_common_exit_hook` pass: the unit status it set, whether
the layer changed, whether `_restart_service` was called, whether that call
reported success, and the resulting state. -/
structure PassResult where
  status : Status
  changed : Bool
  restartAttempted : Bool
  restarted : Bool
  state : CharmState
deriving DecidableEq

/-- Python truthiness for an optional string: `None` and `""` are falsy. -/
def truthyStr : Option String → Option String
  | none => none
  | some a => if a = "" then none else some a

/-- Dict-style upsert on an association list: updating an existing key keeps
its position, a new key is appended (Python dict insertion semantics). -/
def upsert {α : Type} (d : List (String × α)) (k : String) (v : α) :
    List (String × α) :=
  if d.any (fun p => p.1 = k) then
    d.map (fun p => if p.1 = k then (k, v) else p)
  else d ++ [(k, v)]

/-- The fixed `CharCharm._port` class attribute. -/
def charPort : Nat := 8080

/-- `CharCharm._get_peer_addresses`: walks `peer_relation.units` in iteration
order, keeps units whose published `private_address` is truthy, and renders
each as `f"{address}:{self._port}"`. Returns `[]` when the relation does not
exist. -/
def getPeerAddresses (pr : Option PeerRelation) : List String :=
  match pr with
  | none => []
  | some p =>
      p.units.filterMap
        (fun u => (truthyStr u.2).map (fun a => a ++ ":" ++ toString charPort))

/-- The environment dict built by `CharCharm._char_layer`, in dict literal
order: ENEMIES is the `";"`-join of the peer addresses, UVICORN_PORT and NAME
copy `config["port"]` and `config["name"]`, LOGLEVEL is the hardcoded
`"INFO"` (the source comments "could expose to config"). -/
def charEnv (cfg : CharConfig) (enemies : List String) : List (String × String) :=
  [("ENEMIES", String.intercalate ";" enemies),
   ("UVICORN_PORT", cfg.port),
   ("NAME", cfg.name),
   ("LOGLEVEL", "INFO")]

/-- The "char" service entry of the layer returned by
`CharCharm._char_layer`. -/
def charService (cfg : CharConfig) (enemies : List String) : ServiceSpec :=
  ⟨"replace", "char service", "./main.sh", "enabled", charEnv cfg enemies⟩

/-- `CharCharm._restart_service`, parameterised by the result of its own
`can_connect()` query: fails (returns false) if the container is unreachable
or the "char" service is absent from the plan, otherwise restarts the service
(it is running afterwards) and returns true. Result is (success, running'). -/
def restartService (conn : Bool) (plan : Option ServiceSpec) (running : Bool) :
    Bool × Bool :=
  if conn = false then (false, running)
  else
    match plan with
    | none => (false, running)
    | some _ => (true, true)

/-- `CharCharm._update_layer(restart)`: renders the overlay from the current
config and peer relation, and if the "char" service is absent from the plan or
differs from the overlay, adds the layer (with override "replace" the combined
plan's "char" entry becomes the overlay) and optionally restarts. Result is
(changed, plan', running'). -/
def updateLayer (restart : Bool) (conn : Bool) (cfg : CharConfig)
    (pr : Option PeerRelation) (plan : Option ServiceSpec) (running : Bool) :
    Bool × Option ServiceSpec × Bool :=
  let overlay := charService cfg (getPeerAddresses pr)
  if plan = some overlay then (false, plan, running)
  else
    if restart then
      let r := restartService conn (some overlay) running
      (true, some overlay, r.2)
    else (true, some overlay, running)

/-- Writing this unit's `private_address` into its own databag of the peer
relation (`self.peer_relation.data[self.unit]["private_address"] = ...`);
a no-op when the relation does not exist. -/
def publishOwnAddress (pr : Option PeerRelation) (addr : String) :
    Option PeerRelation :=
  match pr with
  | none => none
  | some p => some ⟨p.units, upsert p.ownData "private_address" addr⟩

/-- `CharCharm._common_exit_hook`: the reconciliation pass shared by all
lifecycle events. Early exits set MaintenanceStatus; otherwise the unit's
address is published, the layer updated (restart=False), and
`_restart_service` is called only when the peer relation exists, the layer
changed, and the service is not running or there is at least one peer. The
status is then set to ActiveStatus unconditionally. -/
def commonExitHook (s : CharmState) : PassResult :=
  if s.conn1 = false then
    ⟨.maintenance "Waiting for pod startup to complete", false, false, false, s⟩
  else
    match truthyStr s.bindAddress with
    | none => ⟨.maintenance "Waiting for IP address", false, false, false, s⟩
    | some addr =>
      let peerRel' := publishOwnAddress s.peerRel addr
      let res := updateLayer false s.conn2 s.config peerRel' s.plan s.running
      let layerChanged := res.1
      let plan' := res.2.1
      let running1 := res.2.2
      match s.peerRel with
      | some pr =>
        if layerChanged = true ∧ (running1 = false ∨ 0 < pr.units.length) then
          let r := restartService s.conn2 plan' running1
          ⟨.active, layerChanged, true, r.1,
            ⟨s.conn1, s.conn2, s.bindAddress, peerRel', plan', r.2, s.config⟩⟩
        else
          ⟨.active, layerChanged, false, false,
            ⟨s.conn1, s.conn2, s.bindAddress, peerRel', plan', running1, s.config⟩⟩
      | none =>
        ⟨.active, layerChanged, false, false,
          ⟨s.conn1, s.conn2, s.bindAddress, peerRel', plan', running1, s.config⟩⟩

/-- What an action handler did to its action event: whether
`event.set_results` was called and what failure message, if any, was passed to
`event.fail`. -/
structure ActionSurface where
  resultsSet : Bool
  failureMessage : Option String
deriving DecidableEq

/-- `CharCharm._on_respawn_action`: the handler body is exactly
`self._restart_service()` — it calls the restart helper directly (it does not
run `_common_exit_hook`), discards the returned boolean, and never touches the
action event. Result is (the discarded (success, running') pair, the action
surface). -/
def onRespawnAction (conn : Bool) (plan : Option ServiceSpec) (running : Bool) :
    (Bool × Bool) × ActionSurface :=
  (restartService conn plan running, ⟨false, none⟩)

/-- `get_name_and_hp` inside `_on_glob_status_action`: an HTTP GET against
`http://{host}:8080/status`. The network is modelled as a response map; `none`
means the request raises (host unreachable). -/
def getNameAndHp (responses : String → Option (String × Nat)) (host : String) :
    Option (String × Nat) :=
  responses host

/-- The `for host in chain(['localhost'], self.enemies)` loop of
`_on_glob_status_action`: queries each host in order and accumulates
`statuses[name] = hp`; an unreachable host raises out of the loop, so the
whole action aborts (`none`) and the partial dict is discarded. -/
def globStatusLoop (responses : String → Option (String × Nat)) :
    List String → List (String × Nat) → Option (List (String × Nat))
  | [], statuses => some statuses
  | host :: rest, statuses =>
      match getNameAndHp responses host with
      | none => none
      | some nh => globStatusLoop responses rest (upsert statuses nh.1 nh.2)

/-- `CharCharm._on_glob_status_action`: collects name/hp over localhost plus
every peer address. -/
def globStatusAction (responses : String → Option (String × Nat))
    (pr : Option PeerRelation) : Option (List (String × Nat)) :=
  globStatusLoop responses ("localhost" :: getPeerAddresses pr) []

/-- `REQUIRED_SEES_RELATION_FIELDS` from sees.py (note: contains only
"service-hostname"). -/
def REQUIRED_SEES_RELATION_FIELDS : List String := ["service-hostname"]

/-- `OPTIONAL_SEES_RELATION_FIELDS` from sees.py (note: contains only
"service-port"). -/
def OPTIONAL_SEES_RELATION_FIELDS : List String := ["service-port"]

/-- The fixed `blocked_message` of `SeesRequires._config_dict_errors`. -/
def seesBlockedMessage : String := "Error in sees relation, check `juju debug-log`"

/-- Association-list lookup, modelling `dict.get(key)` / databag access. -/
def lookupStr {α : Type} (d : List (String × α)) (k : String) : Option α :=
  (d.find? (fun p => p.1 = k)).map (fun p => p.2)

/-- `SeesRequires._config_dict_errors`: reports an error (and sets
BlockedStatus) if the config dict holds a key outside
REQUIRED ∪ OPTIONAL, or — unless update_only — if a required key is missing.
Result is (errors, status set on the unit, if any). -/
def configDictErrors (configDict : List (String × String)) (updateOnly : Bool) :
    Bool × Option String :=
  let unknown := configDict.filter
    (fun kv => ¬ (kv.1 ∈ REQUIRED_SEES_RELATION_FIELDS ∨
                  kv.1 ∈ OPTIONAL_SEES_RELATION_FIELDS))
  if unknown ≠ [] then (true, some seesBlockedMessage)
  else
    let missing := REQUIRED_SEES_RELATION_FIELDS.filter
      (fun f => ¬ configDict.any (fun kv => kv.1 = f))
    if updateOnly = false ∧ missing ≠ [] then (true, some seesBlockedMessage)
    else (false, none)

/-- Writing the config dict into the application databag
(`event.relation.data[self.model.app][key] = str(self.config_dict[key])`);
values are modelled as strings, so `str` is the identity. -/
def writeAll (appData : List (String × String))
    (configDict : List (String × String)) : List (String × String) :=
  configDict.foldl (fun acc kv => upsert acc kv.1 kv.2) appData

/-- `SeesRequires._on_relation_changed`: on the leader, validate the config
dict; on error return without writing (the unit status was set to Blocked),
otherwise copy every key into the application databag. Result is (application
databag after the handler, status set on the unit, if any). -/
def seesRequiresRelationChanged (isLeader : Bool)
    (configDict appData : List (String × String)) :
    List (String × String) × Option String :=
  if isLeader = false then (appData, none)
  else
    match configDictErrors configDict false with
    | (true, st) => (appData, st)
    | (false, _) => (writeAll appData configDict, none)

/-- `SeesProvides._on_relation_changed`: non-leaders return immediately
(without emitting). On the leader, the required fields are looked up in the
remote application databag; if any is missing the unit is set to Blocked with
the listed fields — and then `sees_available` is emitted unconditionally.
Result is (status set on the unit, if any, whether sees_available was
emitted). -/
def seesProvidesRelationChanged (isLeader : Bool)
    (remote : List (String × String)) : Option String × Bool :=
  if isLeader = false then (none, false)
  else
    let missing := REQUIRED_SEES_RELATION_FIELDS.filter
      (fun f => (lookupStr remote f).isNone)
    if missing ≠ [] then
      (some ("Missing fields for sees: " ++ String.intercalate ", " missing),
       true)
    else (none, true)

/-- The set of peer units visible to a state (empty when the peer relation has
not been created). -/
def peerUnits (s : CharmState) : List (String × Option String) :=
  match s.peerRel with
  | none => []
  | some pr => pr.units

/-- Claim C1 as stated: with the container connected and the self-address
known, `_common_exit_hook` restarts the service if and only if the layer
changed and (the service is not running or the set of peer units is
non-empty). -/
def claimC1 : Prop :=
  ∀ s : CharmState, s.conn1 = true → s.conn2 = true →
    (truthyStr s.bindAddress).isSome = true →
    ((commonExitHook s).restarted = true ↔
      ((commonExitHook s).changed = true ∧
        (s.running = false ∨ peerUnits s ≠ [])))

/-- Claim C2 as stated: for every state, running the pass twice with no
intervening external change yields changed=false and restarted=false on the
second pass, and the second pass's outcome is Active. -/
def claimC2 : Prop :=
  ∀ s : CharmState,
    (commonExitHook (commonExitHook s).state).changed = false ∧
    (commonExitHook (commonExitHook s).state).restarted = false ∧
    (commonExitHook (commonExitHook s).state).status = Status.active

/-- Claim C4 as stated: with the container connected but the self-address
unknown, the pass stops before any mutation and the resulting status is a
WaitingStatus. -/
def claimC4 : Prop :=
  ∀ s : CharmState, s.conn1 = true → truthyStr s.bindAddress = none →
    ((commonExitHook s).state = s ∧
      ∃ msg, (commonExitHook s).status = Status.waiting msg)

/-- Claim C6 as stated: the rendered layer joins the peer addresses with ";"
into ENEMIES, copies four user-configured scalars (port, display name, log
level, bind host) into environment entries under fixed keys distinct from
each other and from ENEMIES, and always uses startup "enabled" and override
"replace". -/
def claimC6 : Prop :=
  ∃ kp kn kl kb : String,
    kp ≠ kn ∧ kp ≠ kl ∧ kp ≠ kb ∧ kn ≠ kl ∧ kn ≠ kb ∧ kl ≠ kb ∧
    kp ≠ "ENEMIES" ∧ kn ≠ "ENEMIES" ∧ kl ≠ "ENEMIES" ∧ kb ≠ "ENEMIES" ∧
    ∀ (cfg : CharConfig) (enemies : List String),
      ("ENEMIES", String.intercalate ";" enemies) ∈ charEnv cfg enemies ∧
      (kp, cfg.port) ∈ charEnv cfg enemies ∧
      (kn, cfg.name) ∈ charEnv cfg enemies ∧
      kl ∈ (charEnv cfg enemies).map Prod.fst ∧
      kb ∈ (charEnv cfg enemies).map Prod.fst ∧
      (charService cfg enemies).startup = "enabled" ∧
      (charService cfg enemies).override = "replace"

/-- Claim C7 as stated: two peer directories holding the same set of
(unitID, address) pairs yield the same ordered sequence of "address:port"
strings. -/
def claimC7 : Prop :=
  ∀ d1 d2 : PeerRelation,
    (∀ p : String × Option String, p ∈ d1.units ↔ p ∈ d2.units) →
    getPeerAddresses (some d1) = getPeerAddresses (some d2)

/-- Concrete state for the C1 counterexample: container connected, address
known, peer relation not yet created, service never configured and not
running. -/
def c1State : CharmState :=
  ⟨true, true, some "10.0.0.1", none, none, false, ⟨"8080", "char"⟩⟩

/-- Concrete state for the C2 counterexample: the container is not connected,
so both passes end in MaintenanceStatus, not Active. -/
def c2State : CharmState :=
  ⟨false, true, some "10.0.0.1", none, none, false, ⟨"8080", "char"⟩⟩

/-- Concrete state for the C4 counterexample: connected, but the binding has
no address. -/
def c4State : CharmState :=
  ⟨true, true, none, some ⟨[("char/1", some "10.0.0.5")], []⟩, none, false,
   ⟨"8080", "char"⟩⟩

/-- Concrete state for C5: a restart is required (layer changed, one peer),
but the pebble connection drops between the hook-entry `can_connect()` query
and the one inside `_restart_service`, so the restart call fails. -/
def c5State : CharmState :=
  ⟨true, false, some "10.0.0.1", some ⟨[("char/1", some "10.0.0.5")], []⟩,
   none, false, ⟨"8080", "char"⟩⟩

/-- Two peer directories for C7 holding the same set of (unit, address) pairs
in opposite iteration order. -/
def c7DirA : PeerRelation :=
  ⟨[("char/1", some "10.0.0.5"), ("char/2", some "10.0.0.6")], []⟩

/-- The same directory contents as `c7DirA`, iterated in the opposite
order. -/
def c7DirB : PeerRelation :=
  ⟨[("char/2", some "10.0.0.6"), ("char/1", some "10.0.0.5")], []⟩

/-- Network responses for C8: localhost and the second peer answer, the first
peer is unreachable. -/
def c8Responses : String → Option (String × Nat) := fun host =>
  if host = "localhost" then some ("me", 10)
  else if host = "10.0.0.6:8080" then some ("charlie", 7)
  else none

/-- Peer relation for C8: two peers with published addresses. -/
def c8PeerRel : PeerRelation :=
  ⟨[("char/1", some "10.0.0.5"), ("char/2", some "10.0.0.6")], []⟩

/-- The config dict of the C3 failing input: exactly the three keys the claim
(and the sees.py module docstring) recognises. -/
def c3FullConfig : List (String × String) :=
  [("service-hostname", "foo"), ("service-name", "app"),
   ("service-port", "8080")]

/-- A config dict with an unknown key, for the first half of C3. -/
def c3UnknownConfig : List (String × String) :=
  [("service-hostname", "foo"), ("service-token", "secret")]

/-- Concrete state used to witness the amended C1: connected, address known,
peer relation present with no peer units, service never configured. -/
def c1WitnessState : CharmState :=
  ⟨true, true, some "10.0.0.1", some ⟨[], []⟩, none, false, ⟨"8080", "char"⟩⟩

/-- Concrete state used to witness the amended C2 and C4 statements. -/
def cWitnessState : CharmState :=
  ⟨true, true, some "10.0.0.2", some ⟨[("char/1", some "10.0.0.5")], []⟩,
   none, true, ⟨"9090", "char"⟩⟩

/-- Publishing the unit's own address does not change the peer address
listing: `_get_peer_addresses` only reads the peer units' databags. -/
theorem getPeerAddresses_publish (pr : Option PeerRelation) (a : String) :
    getPeerAddresses (publishOwnAddress pr a) = getPeerAddresses pr := by
  cases pr <;> rfl

/-- Normal form of `_update_layer(restart=False)`: the plan's "char" entry
always equals the overlay afterwards, and `changed` records whether it
differed before. -/
theorem updateLayer_false (conn : Bool) (cfg : CharConfig)
    (pr : Option PeerRelation) (plan : Option ServiceSpec) (run : Bool) :
    updateLayer false conn cfg pr plan run =
      ((if plan = some (charService cfg (getPeerAddresses pr)) then false
        else true),
       some (charService cfg (getPeerAddresses pr)), run) := by
  unfold updateLayer
  by_cases h : plan = some (charService cfg (getPeerAddresses pr)) <;>
    simp [h]

/-- After a pass that gets past both early exits, the state holds the
published address, the plan's "char" entry equals the rendered overlay, and
everything except the running flag is otherwise untouched. -/
theorem commonExitHook_state_main (s : CharmState) (a : String)
    (h1 : s.conn1 = true) (ha : truthyStr s.bindAddress = some a) :
    ∃ r : Bool, (commonExitHook s).state =
      ⟨s.conn1, s.conn2, s.bindAddress, publishOwnAddress s.peerRel a,
       some (charService s.config (getPeerAddresses s.peerRel)), r,
       s.config⟩ := by
  unfold commonExitHook
  rw [h1, ha]
  simp only [updateLayer_false, getPeerAddresses_publish, Bool.true_eq_false,
    if_false]
  cases hp : s.peerRel with
  | none => exact ⟨s.running, rfl⟩
  | some pr =>
      dsimp only
      split <;> split <;> exact ⟨_, rfl⟩

/-- A pass whose plan already equals the rendered overlay changes nothing,
attempts no restart, and ends Active. -/
theorem commonExitHook_unchanged (s : CharmState) (a : String)
    (h1 : s.conn1 = true) (ha : truthyStr s.bindAddress = some a)
    (hplan : s.plan =
      some (charService s.config (getPeerAddresses s.peerRel))) :
    commonExitHook s =
      ⟨Status.active, false, false, false,
       ⟨s.conn1, s.conn2, s.bindAddress, publishOwnAddress s.peerRel a,
        s.plan, s.running, s.config⟩⟩ := by
  obtain ⟨c1, c2, bind, prel, plan, run, cfg⟩ := s
  simp only at h1 ha hplan
  subst h1
  subst hplan
  unfold commonExitHook
  simp only [updateLayer_false, getPeerAddresses_publish, ha]
  cases prel <;> simp

/-- C3 (code bug): on the leader, publishing the config dict holding exactly
the keys the library's own docstring recognises — service-hostname,
service-name and service-port — is rejected: "service-name" is missing from
REQUIRED/OPTIONAL_SEES_RELATION_FIELDS, so `_config_dict_errors` flags it as
unknown, the unit is set to Blocked, and nothing is written. A dict with a
truly unknown key ("service-token") is likewise blocked with no write, as the
claim states. -/
theorem c3_service_name_rejected :
    seesRequiresRelationChanged true c3FullConfig [] =
      ([], some seesBlockedMessage) ∧
    seesRequiresRelationChanged true c3UnknownConfig [] =
      ([], some seesBlockedMessage) := by
  decide

/-- C5 (code bug): at `c5State` a restart is required and the restart call
fails (the container became unreachable between the hook-entry connectivity
check and `_restart_service`), yet `_common_exit_hook` sets ActiveStatus
anyway — the boolean returned by `_restart_service` is discarded, so the
outcome is promoted to Active with the service still not running. -/
theorem c5_restart_failure_ignored :
    (commonExitHook c5State).restartAttempted = true ∧
    (commonExitHook c5State).restarted = false ∧
    (commonExitHook c5State).state.running = false ∧
    (commonExitHook c5State).status = Status.active := by
  decide

/-- C6 counterexample: the claim as stated is false — the rendered
environment has exactly the four keys ENEMIES, UVICORN_PORT, NAME and
LOGLEVEL, so there is no room for four user-configured scalar entries besides
ENEMIES: the source has no bind-host entry at all and hardcodes LOGLEVEL to
"INFO". -/
theorem c6_counterexample : ¬ claimC6 := by
  rintro ⟨kp, kn, kl, kb, h12, h13, h14, h23, h24, h34, hpE, hnE, hlE, hbE,
    hall⟩
  obtain ⟨-, hp, hn, hl, hb, -, -⟩ := hall ⟨"P", "Q"⟩ []
  simp [charEnv] at hp hn hl hb
  rcases hp with ⟨-, hPv⟩ | hp
  · exact absurd hPv (by decide)
  rcases hn with ⟨-, hQv⟩ | hn
  · exact absurd hQv (by decide)
  subst hp
  subst hn
  rcases hl with hl | hl | hl | hl <;> rcases hb with hb | hb | hb | hb <;>
    simp_all

/-- C6 (amended): the rendered layer joins the peer addresses with ";" into
ENEMIES, copies `config["port"]` into UVICORN_PORT and `config["name"]` into
NAME verbatim, sets LOGLEVEL to the constant "INFO", has no other environment
entries (in particular no bind-host entry), and always uses startup "enabled"
and override "replace". -/
theorem c6_layer_rendering (cfg : CharConfig) (enemies : List String) :
    ("ENEMIES", String.intercalate ";" enemies) ∈ charEnv cfg enemies ∧
    ("UVICORN_PORT", cfg.port) ∈ charEnv cfg enemies ∧
    ("NAME", cfg.name) ∈ charEnv cfg enemies ∧
    ("LOGLEVEL", "INFO") ∈ charEnv cfg enemies ∧
    (charEnv cfg enemies).map Prod.fst =
      ["ENEMIES", "UVICORN_PORT", "NAME", "LOGLEVEL"] ∧
    (charService cfg enemies).startup = "enabled" ∧
    (charService cfg enemies).override = "replace" ∧
    (charService cfg enemies).environment = charEnv cfg enemies := by
  simp [charEnv, charService]

/-- C7 counterexample: two peer directories holding the same set of
(unitID, address) pairs but iterated in opposite orders produce differently
ordered address listings — `_get_peer_addresses` walks the unordered
`relation.units` set without sorting, so the listing is not a function of the
directory contents alone. -/
theorem c7_counterexample : ¬ claimC7 := by
  intro h
  have hmem : ∀ p : String × Option String,
      p ∈ c7DirA.units ↔ p ∈ c7DirB.units := by
    intro p
    constructor <;> intro hp <;> simp [c7DirA, c7DirB] at hp ⊢ <;> tauto
  exact absurd (h c7DirA c7DirB hmem) (by decide)

/-- C7 (amended): the peer-address listing is a pure function of the unit
sequence in iteration order — it maps each unit with a truthy published
address, in order, to "address:8080" — and permuting the directory permutes
the listing (so equal contents guarantee only equality up to reordering, not
an identical rendered WorkloadConfig). -/
theorem c7_perm_of_directory_perm (d1 d2 : PeerRelation)
    (h : d1.units.Perm d2.units) :
    (getPeerAddresses (some d1)).Perm (getPeerAddresses (some d2)) := by
  unfold getPeerAddresses
  exact h.filterMap _

/-- Witness for the amended C7 at the two concrete directories. -/
theorem c7_perm_of_directory_perm_witness :
    (getPeerAddresses (some c7DirA)).Perm (getPeerAddresses (some c7DirB)) :=
  c7_perm_of_directory_perm c7DirA c7DirB (by decide)

/-- C8 (code bug): with localhost and the second peer reachable but the first
peer unreachable, `_on_glob_status_action` aborts and reports nothing — the
loop has no exception handling, so the first failed GET raises out of the
handler; the reachable second peer (which does answer) is never collected and
no per-peer failure marker exists. -/
theorem c8_abort_on_failure :
    globStatusAction c8Responses (some c8PeerRel) = none ∧
    getNameAndHp c8Responses "localhost" = some ("me", 10) ∧
    getNameAndHp c8Responses "10.0.0.6:8080" = some ("charlie", 7) := by
  decide

/-- C9 (code bug): `_on_respawn_action` calls `_restart_service` directly
(bypassing `_common_exit_hook`) but surfaces nothing to the action caller —
`event.set_results`/`event.fail` are never invoked (the repository's own
`test_respawn_action` asserts `set_results.called`), and the two failure
modes (container unreachable, service never configured) collapse to the same
discarded boolean `False`. -/
theorem c9_respawn_surfaces_nothing :
    (∀ (c : Bool) (p : Option ServiceSpec) (r : Bool),
      (onRespawnAction c p r).2 = ⟨false, none⟩) ∧
    (onRespawnAction false (some (charService ⟨"8080", "char"⟩ [])) true).1.1
      = false ∧
    (onRespawnAction true none true).1.1 = false := by
  exact ⟨fun c p r => rfl, rfl, rfl⟩

/-- C1 counterexample: the claim as stated is false — at `c1State` the
container is connected, the address known, the layer changed and the service
is not running, so the claim requires a restart; but the peer relation does
not exist, and the source only restarts inside `if peer_relation := ...`, so
no restart happens. -/
theorem c1_counterexample : ¬ claimC1 := by
  intro h
  have hiff := h c1State rfl rfl (by decide)
  have hrhs : (commonExitHook c1State).changed = true ∧
      (c1State.running = false ∨ peerUnits c1State ≠ []) :=
    ⟨by decide, Or.inl (by decide)⟩
  exact absurd (hiff.mpr hrhs) (by decide)

/-- C1 (amended): with the container connected throughout the pass and the
self-address known, the service is restarted if and only if the layer changed
AND the peer relation exists AND (the service is not running or the peer set
is non-empty); in particular, when the peer relation has not been created no
restart ever happens, even with the layer changed and the service down. -/
theorem c1_restart_policy (s : CharmState) (h1 : s.conn1 = true)
    (h2 : s.conn2 = true) (h3 : (truthyStr s.bindAddress).isSome = true) :
    (commonExitHook s).restarted = true ↔
      ((commonExitHook s).changed = true ∧ s.peerRel.isSome = true ∧
        (s.running = false ∨ peerUnits s ≠ [])) := by
  obtain ⟨a, ha⟩ := Option.isSome_iff_exists.mp h3
  obtain ⟨c1, c2, bind, prel, plan, run, cfg⟩ := s
  dsimp only at h1 h2 ha ⊢
  subst h1
  subst h2
  unfold commonExitHook
  simp only [updateLayer_false, getPeerAddresses_publish, ha]
  cases prel with
  | none => simp [peerUnits]
  | some pr =>
      by_cases hch : plan = some (charService cfg (getPeerAddresses (some pr)))
        <;> cases run <;> rcases hu : pr.units with - | ⟨u, us⟩ <;>
        simp_all [peerUnits, restartService]

/-- Witness for the amended C1: at `c1WitnessState` (peer relation present
with zero peers, layer changed, service not running) the restart does
happen. -/
theorem c1_restart_policy_witness :
    c1WitnessState.conn1 = true ∧ c1WitnessState.conn2 = true ∧
    (truthyStr c1WitnessState.bindAddress).isSome = true ∧
    ((commonExitHook c1WitnessState).restarted = true ↔
      ((commonExitHook c1WitnessState).changed = true ∧
        c1WitnessState.peerRel.isSome = true ∧
        (c1WitnessState.running = false ∨ peerUnits c1WitnessState ≠ []))) :=
  ⟨rfl, rfl, by decide, c1_restart_policy c1WitnessState rfl rfl (by decide)⟩

/-- C2 counterexample: the claim as stated is false — at `c2State` the
container is not connected, so the second pass (like the first) ends in
MaintenanceStatus, not Active. -/
theorem c2_counterexample : ¬ claimC2 := by
  intro h
  exact absurd (h c2State).2.2 (by decide)

/-- C2 (amended): the pass is idempotent — rerunning it on the resulting
state with no intervening external change always yields changed=false and
restarted=false, and when the container is connected and the self-address
known the second pass's outcome is Active (otherwise it repeats the same
early-exit status). -/
theorem c2_idempotent (s : CharmState) :
    (commonExitHook (commonExitHook s).state).changed = false ∧
    (commonExitHook (commonExitHook s).state).restarted = false ∧
    (s.conn1 = true → (truthyStr s.bindAddress).isSome = true →
      (commonExitHook (commonExitHook s).state).status = Status.active) := by
  by_cases h1 : s.conn1 = true
  · cases htr : truthyStr s.bindAddress with
    | none =>
        have hfix : commonExitHook s =
            ⟨Status.maintenance "Waiting for IP address", false, false, false,
             s⟩ := by
          unfold commonExitHook
          rw [htr]
          simp [h1]
        rw [hfix]
        dsimp only
        rw [hfix]
        refine ⟨rfl, rfl, fun _ hsome => ?_⟩
        exact absurd hsome (by decide)
    | some a =>
        obtain ⟨r, hst⟩ := commonExitHook_state_main s a h1 htr
        have h1' : ((commonExitHook s).state).conn1 = true := by
          rw [hst]
          exact h1
        have ha' : truthyStr ((commonExitHook s).state).bindAddress = some a
            := by
          rw [hst]
          exact htr
        have hplan' : ((commonExitHook s).state).plan =
            some (charService ((commonExitHook s).state).config
              (getPeerAddresses ((commonExitHook s).state).peerRel)) := by
          rw [hst]
          dsimp only
          rw [getPeerAddresses_publish]
        have h2nd := commonExitHook_unchanged ((commonExitHook s).state) a
          h1' ha' hplan'
        rw [h2nd]
        exact ⟨rfl, rfl, fun _ _ => rfl⟩
  · have hb : s.conn1 = false := by
      cases hcc : s.conn1
      · rfl
      · exact absurd hcc h1
    have hfix : commonExitHook s =
        ⟨Status.maintenance "Waiting for pod startup to complete", false,
         false, false, s⟩ := by
      unfold commonExitHook
      rw [hb]
      rfl
    rw [hfix]
    dsimp only
    rw [hfix]
    exact ⟨rfl, rfl, fun hc => absurd hc h1⟩

/-- Witness for the amended C2 at a concrete connected state with a known
address: the second pass reports Active with changed=false,
restarted=false. -/
theorem c2_idempotent_witness :
    (commonExitHook (commonExitHook cWitnessState).state).changed = false ∧
    (commonExitHook (commonExitHook cWitnessState).state).restarted = false ∧
    (commonExitHook (commonExitHook cWitnessState).state).status =
      Status.active :=
  ⟨(c2_idempotent cWitnessState).1, (c2_idempotent cWitnessState).2.1,
   (c2_idempotent cWitnessState).2.2 rfl (by decide)⟩

/-- C4 counterexample: the claim as stated is false — at `c4State` (container
connected, binding address absent) the pass sets
MaintenanceStatus("Waiting for IP address"), which is not a WaitingStatus. -/
theorem c4_counterexample : ¬ claimC4 := by
  intro h
  obtain ⟨-, m, hm⟩ := h c4State rfl (by decide)
  rw [show (commonExitHook c4State).status =
      Status.maintenance "Waiting for IP address" from by decide] at hm
  exact Status.noConfusion hm

/-- C4 (amended): with the container connected but the self-address unknown,
the pass stops before any mutation (the state is returned untouched, nothing
is published and no layer or restart happens) and the outcome is
MaintenanceStatus("Waiting for IP address") — never Active — regardless of
peer or config state. -/
theorem c4_missing_address (s : CharmState) (h1 : s.conn1 = true)
    (h2 : truthyStr s.bindAddress = none) :
    commonExitHook s =
      ⟨Status.maintenance "Waiting for IP address", false, false, false, s⟩ ∧
    (commonExitHook s).status ≠ Status.active := by
  have hmain : commonExitHook s =
      ⟨Status.maintenance "Waiting for IP address", false, false, false, s⟩
      := by
    unfold commonExitHook
    rw [h2]
    simp [h1]
  exact ⟨hmain, by rw [hmain]; simp⟩

/-- Witness for the amended C4 at the concrete address-less state. -/
theorem c4_missing_address_witness :
    c4State.conn1 = true ∧ truthyStr c4State.bindAddress = none ∧
    (commonExitHook c4State =
      ⟨Status.maintenance "Waiting for IP address", false, false, false,
       c4State⟩ ∧
    (commonExitHook c4State).status ≠ Status.active) :=
  ⟨rfl, rfl, c4_missing_address c4State rfl rfl⟩

/-- C10 (confirmed): on the leader, `SeesProvides._on_relation_changed` emits
`sees_available` unconditionally — also when the required field
"service-hostname" is absent from the remote databag and the unit has just
been set to Blocked with the missing-fields message. -/
theorem c10_always_emits :
    (∀ remote : List (String × String),
      (seesProvidesRelationChanged true remote).2 = true) ∧
    seesProvidesRelationChanged true [] =
      (some "Missing fields for sees: service-hostname", true) := by
  constructor
  · intro remote
    unfold seesProvidesRelationChanged
    split
    · simp_all
    · dsimp only
      split <;> rfl
  · decide
